import Mathlib

/-!
Verification development for the igTLDR Instagram crawl/score pipeline.

Shallow embedding of the core components, translated from the Python sources:

* `PostScorer` (src/post_scorer.py): multi-factor post scoring, including the
  regex-based event-indicator detection (modelled by a small backtracking
  regex matcher specialised to the four fixed patterns).
* `DirectFeedService` (src/backend/services/direct_feed_service.py): the
  sponsored-post predicate over duck-typed payloads, the paginated crawl loop,
  the JSON-file post store (`_save_posts`, `_initialize_feed_file`,
  `_append_post_to_file`) and the rate-limit backoff.
* `FeedService._handle_rate_limit` (src/backend/services/feed_service.py).
* `InstagramAuthenticator._load_session` / `_try_recover_from_backup`
  (src/backend/core/auth.py).

Python numbers are modelled with `Int`/`Rat` (true division is exact in `Rat`;
a `ZeroDivisionError` is modelled as `Option.none`), Python exceptions with
`Option`/`Except`, datetimes with unix seconds (`Int`), and the file system
with explicit state records.
-/

namespace PostScorer

/-- The `Post` dataclass of src/post_scorer.py.  `caption : Optional[str]` is
`Option String`; `event_keywords` defaults to Python `None`, hence
`Option (List String)`.  `created_at : datetime` is modelled as unix seconds. -/
structure Post where
  post_id : String
  user_id : String
  is_close_friend : Bool
  is_verified : Bool
  caption : Option String
  engagement_count : Int
  follower_count : Int
  created_at : Int
  has_event_indicators : Bool := false
  event_keywords : Option (List String) := none
deriving DecidableEq, Repr

/-- Python truthiness of an `Optional[str]`: `None` and the empty string are
falsy. -/
def captionTruthy : Option String → Bool
  | none => false
  | some s => s ≠ ""

/-- The fixed component weights from `PostScorer.__init__` (self.weights). -/
def weights_user_signal : ℚ := 3/10
def weights_content_signal : ℚ := 25/100
def weights_keyword_relevance : ℚ := 2/10
def weights_engagement_ratio : ℚ := 15/100
def weights_recency : ℚ := 1/10

/-- The engagement thresholds from `PostScorer.__init__`
(self.engagement_thresholds). -/
def threshold_high : ℚ := 5/100
def threshold_medium : ℚ := 2/100
def threshold_low : ℚ := 1/100

/-- `PostScorer.calculate_user_signal_weight`. -/
def calculate_user_signal_weight (post : Post) : ℚ :=
  if post.is_close_friend then 1
  else if post.is_verified then 3/10
  else 7/10

/-- `PostScorer.calculate_content_signal_weight`.  When the caption is falsy
the code divides `engagement_count / follower_count`; a zero
`follower_count` raises `ZeroDivisionError`, modelled as `none`. -/
def calculate_content_signal_weight (post : Post) : Option ℚ :=
  if ¬ captionTruthy post.caption then
    if post.follower_count = 0 then none
    else
      let engagement_ratio : ℚ := (post.engagement_count : ℚ) / (post.follower_count : ℚ)
      if engagement_ratio ≥ threshold_high then some (4/10) else some (2/10)
  else if post.has_event_indicators then some 1
  else some (6/10)

/-- Python truthiness of `post.event_keywords and len(post.event_keywords) > 0`:
falsy for `None` and for the empty list. -/
def keywordsTruthy : Option (List String) → Bool
  | some l => decide (l.length > 0)
  | none => false

/-- `PostScorer.calculate_keyword_relevance_weight`. -/
def calculate_keyword_relevance_weight (post : Post) : ℚ :=
  if post.has_event_indicators then 1
  else if keywordsTruthy post.event_keywords then 8/10
  else 2/10

/-- `PostScorer.calculate_engagement_ratio_weight`.  The division
`post.engagement_count / post.follower_count` is unguarded in the source;
`follower_count = 0` raises `ZeroDivisionError`, modelled as `none`. -/
def calculate_engagement_ratio_weight (post : Post) : Option ℚ :=
  if post.follower_count = 0 then none
  else
    let engagement_ratio : ℚ := (post.engagement_count : ℚ) / (post.follower_count : ℚ)
    if engagement_ratio ≥ threshold_high then some (8/10)
    else if engagement_ratio ≥ threshold_medium then some (5/10)
    else some (2/10)

/-- `PostScorer.calculate_recency_weight`.  `(now - post.created_at).days` is
the floor of the difference in days (Python `timedelta.days` floors), with
`now = datetime.now()` passed explicitly. -/
def calculate_recency_weight (now : Int) (post : Post) : ℚ :=
  let days_old : Int := (now - post.created_at).fdiv 86400
  if days_old = 0 then 1
  else if days_old ≤ 7 then 8/10
  else if days_old ≤ 30 then 5/10
  else 2/10

/-- Python `round(x, 3)` on an exact rational: round to the nearest multiple
of 1/1000, ties to the even multiple (banker's rounding). -/
def pyRound3 (x : ℚ) : ℚ :=
  let y : ℚ := x * 1000
  let n : ℤ := Rat.floor y
  let r : ℚ := y - n
  let m : ℤ :=
    if r < 1/2 then n
    else if 1/2 < r then n + 1
    else if n % 2 = 0 then n else n + 1
  (m : ℚ) / 1000

/-- `PostScorer.calculate_final_score`: the weighted sum of the five component
weights, rounded to 3 decimals.  `none` models the `ZeroDivisionError`
raised by the division-based components on `follower_count = 0`. -/
def calculate_final_score (now : Int) (post : Post) : Option ℚ := do
  let user_weight := calculate_user_signal_weight post
  let content_weight ← calculate_content_signal_weight post
  let keyword_weight := calculate_keyword_relevance_weight post
  let engagement_weight ← calculate_engagement_ratio_weight post
  let recency_weight := calculate_recency_weight now post
  let final_score :=
    user_weight * weights_user_signal +
    content_weight * weights_content_signal +
    keyword_weight * weights_keyword_relevance +
    engagement_weight * weights_engagement_ratio +
    recency_weight * weights_recency
  pure (pyRound3 final_score)

/-!
The event-indicator patterns of `PostScorer.__init__` are four fixed Python
regexes, run with `re.findall(pattern, text, re.IGNORECASE)`.  They are
modelled by a small backtracking matcher whose preference order matches
Python's leftmost, greedy, first-alternative semantics.
-/

/-- Regular-expression syntax sufficient for the four event patterns:
single-character classes, sequencing, alternation, greedy option, a greedy
unbounded repetition of a character class, and the word-boundary
assertion. -/
inductive RE where
  | eps
  | cls (p : Char → Bool)
  | seq (a b : RE)
  | alt (a b : RE)
  | opt (a : RE)
  | starCls (p : Char → Bool)
  | wb

/-- Python word character for the word boundary: `[A-Za-z0-9_]` (the captions
here are ASCII). -/
def isWordChar (c : Char) : Bool := c.isAlpha || c.isDigit || c = '_'

/-- Whether the character at index `i` (if any) is a word character. -/
def wordAt (cs : List Char) (i : Nat) : Bool :=
  match cs.get? i with
  | some c => isWordChar c
  | none => false

/-- Python `\b`: a position where exactly one side is a word character. -/
def isBoundary (cs : List Char) (i : Nat) : Bool :=
  (if i = 0 then false else wordAt cs (i - 1)) != wordAt cs i

/-- Length of the run of characters satisfying `p` at the head of the list. -/
def runLen (p : Char → Bool) : List Char → Nat
  | [] => 0
  | c :: rest => if p c then runLen p rest + 1 else 0

/-- All candidate end positions of a match of `r` starting at `i`, in
backtracking preference order (greedy first, left alternative first).  The
head of the list is the end position Python's engine commits to. -/
def ends (cs : List Char) : RE → Nat → List Nat
  | .eps, i => [i]
  | .cls p, i =>
      match cs.get? i with
      | some c => if p c then [i + 1] else []
      | none => []
  | .seq a b, i => (ends cs a i).flatMap (fun j => ends cs b j)
  | .alt a b, i => ends cs a i ++ ends cs b i
  | .opt a, i => ends cs a i ++ [i]
  | .starCls p, i =>
      let k := runLen p (cs.drop i)
      (List.range (k + 1)).reverse.map (fun j => i + j)
  | .wb, i => if isBoundary cs i then [i] else []

/-- The scan loop of `re.findall`: try each start position left to right; on a
match, record the matched substring and resume after it (a zero-width match
advances by one).  `fuel` bounds the number of steps. -/
def findallAux (r : RE) (cs : List Char) : Nat → Nat → List String
  | _, 0 => []
  | i, fuel + 1 =>
    if i > cs.length then []
    else
      match (ends cs r i).head? with
      | some j =>
          if i < j then
            String.mk ((cs.drop i).take (j - i)) :: findallAux r cs j fuel
          else
            "" :: findallAux r cs (i + 1) fuel
      | none => findallAux r cs (i + 1) fuel

/-- `re.findall(r, s, re.IGNORECASE)` (case folding is built into the
character classes of the patterns below). -/
def findall (r : RE) (s : String) : List String :=
  findallAux r s.data 0 (s.data.length + 1)

/-- Case-insensitive literal word. -/
def litCI (w : String) : RE :=
  w.data.foldr (fun c acc => RE.seq (RE.cls (fun x => x.toLower = c.toLower)) acc) RE.eps

/-- Sequence of regexes. -/
def seqList (l : List RE) : RE := l.foldr RE.seq RE.eps

/-- Ordered alternation of regexes (first alternative preferred). -/
def altList (l : List RE) : RE := l.foldr RE.alt (RE.cls (fun _ => false))

/-- Python `\d`. -/
def digit : RE := RE.cls Char.isDigit

/-- Python `\s` (ASCII whitespace). -/
def wsChar (c : Char) : Bool :=
  c = ' ' || c = '\t' || c = '\n' || c = '\x0d' || c = '\x0b' || c = '\x0c'

/-- Character class of a dash or a forward slash, the date separator. -/
def dashSlash : RE := RE.cls (fun c => c = '-' || c = '/')

/-- `\d{1,2}` (greedy: two digits preferred). -/
def digit12 : RE := RE.seq digit (RE.opt digit)

/-- `\d{1,3}`. -/
def digit13 : RE := RE.seq digit (RE.opt (RE.seq digit (RE.opt digit)))

/-- `\d{2,4}`. -/
def digit24 : RE := RE.seq digit (RE.seq digit (RE.opt (RE.seq digit (RE.opt digit))))

/-- `\s*`. -/
def wsStar : RE := RE.starCls wsChar

/-- `\s+`. -/
def wsPlus : RE := RE.seq (RE.cls wsChar) wsStar

/-- `[A-Za-z\s,]` of the address pattern. -/
def addrChar (c : Char) : Bool := c.isAlpha || wsChar c || c = ','

/-- Date pattern: within word boundaries, one or two digits, a dash or slash,
one or two digits, a dash or slash, then two to four digits. -/
def patDate : RE :=
  seqList [RE.wb, digit12, dashSlash, digit12, dashSlash, digit24, RE.wb]

/-- Time pattern `\b\d{1,2}:\d{2}\s*(?:AM|PM)?\b`. -/
def patTime : RE :=
  seqList [RE.wb, digit12, RE.cls (fun c => c = ':'), digit, digit, wsStar,
    RE.opt (altList [litCI "AM", litCI "PM"]), RE.wb]

/-- Address pattern
`\b\d{1,3}\s+[A-Za-z\s,]+(?:Street|St|Avenue|Ave|Road|Rd|Boulevard|Blvd)\b`. -/
def patAddress : RE :=
  seqList [RE.wb, digit13, wsPlus, RE.seq (RE.cls addrChar) (RE.starCls addrChar),
    altList [litCI "Street", litCI "St", litCI "Avenue", litCI "Ave",
      litCI "Road", litCI "Rd", litCI "Boulevard", litCI "Blvd"], RE.wb]

/-- Keyword pattern
`\b(?:RSVP|register|sign up|tickets|event|meeting|conference|workshop)\b`. -/
def patKeyword : RE :=
  seqList [RE.wb,
    altList [litCI "RSVP", litCI "register", litCI "sign up", litCI "tickets",
      litCI "event", litCI "meeting", litCI "conference", litCI "workshop"],
    RE.wb]

/-- `self.event_patterns`, in source order. -/
def event_patterns : List RE := [patDate, patTime, patAddress, patKeyword]

/-- `PostScorer.detect_event_indicators`: runs `re.findall` for each pattern,
sets the flag if any pattern matched, and accumulates all matches in pattern
order. -/
def detect_event_indicators (text : String) : Bool × List String :=
  if text = "" then (false, [])
  else
    event_patterns.foldl
      (fun acc pat =>
        let ms := findall pat text
        if ms ≠ [] then (true, acc.2 ++ ms) else acc)
      (false, [])

/-- The in-place mutation at the top of `score_post`: when the caption is
truthy, the source overwrites `post.has_event_indicators` and
`post.event_keywords` with the detection results on the caption. -/
def apply_event_detection (post : Post) : Post :=
  if captionTruthy post.caption then
    let det := detect_event_indicators (post.caption.getD "")
    { post with has_event_indicators := det.1, event_keywords := some det.2 }
  else post

/-- `PostScorer.score_post`.  When the caption is truthy the source MUTATES
the input `post` (`post.has_event_indicators = ...`,
`post.event_keywords = ...`) before computing the scores; the mutated post is
returned alongside the component scores and the final score.  `none` models
the `ZeroDivisionError` on `follower_count = 0`. -/
def score_post (now : Int) (post : Post) :
    Option (Post × (List (String × ℚ) × ℚ)) := do
  let post' := apply_event_detection post
  let user ← some (calculate_user_signal_weight post')
  let content ← calculate_content_signal_weight post'
  let keyword := calculate_keyword_relevance_weight post'
  let engagement ← calculate_engagement_ratio_weight post'
  let recency := calculate_recency_weight now post'
  let component_scores :=
    [("user_signal", user), ("content_signal", content),
     ("keyword_relevance", keyword), ("engagement_ratio", engagement),
     ("recency", recency)]
  let final_score ← calculate_final_score now post'
  pure (post', (component_scores, final_score))

end PostScorer

/-!
Duck-typed raw API payloads.  `DirectFeedService._is_sponsored_post` reads a
`Dict[str, Any]` with `.get`, key-membership tests and `len`; the payload is
modelled as a JSON-like Python value with Python truthiness.
-/

/-- A Python value as it appears in the decoded JSON payloads. -/
inductive PyVal where
  | none
  | bool (b : Bool)
  | int (n : Int)
  | str (s : String)
  | list (l : List PyVal)
  | dict (entries : List (String × PyVal))

namespace PyVal

/-- Python truthiness. -/
def truthy : PyVal → Bool
  | .none => false
  | .bool b => b
  | .int n => n ≠ 0
  | .str s => s ≠ ""
  | .list l => !l.isEmpty
  | .dict es => !es.isEmpty

/-- `d.get(key, default)`.  All `.get` calls in `_is_sponsored_post` are made
on dict values (the payload itself, or `.get(.., {})` results). -/
def get (v : PyVal) (key : String) (default : PyVal) : PyVal :=
  match v with
  | .dict es =>
      match es.find? (fun e => e.1 = key) with
      | some e => e.2
      | Option.none => default
  | _ => default

/-- `key in d` for a dict. -/
def hasKey (v : PyVal) (key : String) : Bool :=
  match v with
  | .dict es => es.any (fun e => e.1 = key)
  | _ => false

/-- Python `len` (the source only applies it to the `.get(.., [])` results,
which are lists in every payload the service handles). -/
def pyLen : PyVal → Nat
  | .list l => l.length
  | .str s => s.length
  | .dict es => es.length
  | _ => 0

/-- Python `v != ""`: false only for the empty string (any non-string value
compares unequal to a string). -/
def neqEmptyStr : PyVal → Bool
  | .str s => s ≠ ""
  | _ => true

/-- Python `v == "PAID_PARTNERSHIP"`. -/
def eqStr (v : PyVal) (s : String) : Bool :=
  match v with
  | .str t => t = s
  | _ => false

end PyVal

namespace DirectFeedService

/-- `DirectFeedService._is_sponsored_post`: the chain of early-return
sponsorship checks, in source order. -/
def is_sponsored_post (post_data : PyVal) : Bool :=
  if (post_data.get "is_ad" (.bool false)).truthy then true
  else if (post_data.get "is_paid_partnership" (.bool false)).truthy then true
  else if ((post_data.get "injected" (.dict [])).get "ad_id" .none).truthy then true
  else if (post_data.get "ad_action" (.str "")).neqEmptyStr then true
  else if (post_data.get "ad_id" .none).truthy then true
  else if (post_data.get "ad_link_type" .none).truthy then true
  else if (post_data.get "branded_content_tag_info" .none).truthy then true
  else if (post_data.get "sponsor_tags" .none).truthy
          && (post_data.get "sponsor_tags" (.list [])).pyLen > 0 then true
  else if post_data.hasKey "ad_display_context" then true
  else if (post_data.get "commerce_promotion" .none).truthy then true
  else if (post_data.get "label_type" .none).eqStr "PAID_PARTNERSHIP" then true
  else if (post_data.get "product_tags" .none).truthy
          && (post_data.get "shopping_product_tags" .none).truthy then
    if ((post_data.get "product_tags" (.dict [])).get "in" (.list [])).pyLen > 3 then true
    else false
  else false

end DirectFeedService

/-!
The crawl loop of `DirectFeedService.get_feed`.  Sleeps and browsing
simulation are no-ops in the model.  A page is the `feed_items` list of one
`feed/timeline/` response; the pagination cursor `next_max_id` is present
exactly while further pages remain.  `_fetch_single_post_info` is
network-dependent: its outcomes are supplied as an oracle stream, one entry
consumed per invocation; a successful fetch returns the post data of the
requested id (the media info endpoints answer for the id they are asked
about), so only the post id of the fetched data is tracked.
-/

/-- The payload under the `media_or_ad` key of one feed item. -/
structure RawMedia where
  pk : String
  code : String
  media_type : Nat
deriving DecidableEq, Repr

/-- One entry of the `feed_items` list; items without a `media_or_ad` key are
ignored by the queueing loop. -/
structure FeedItem where
  media_or_ad : Option RawMedia
deriving DecidableEq, Repr

/-- One outcome of `_fetch_single_post_info`: the post data (`ok`), `none`
because `_is_sponsored_post` was true (`sponsored`), or `none` because every
retrieval method failed (`failed`). -/
inductive FetchOutcome where
  | ok
  | sponsored
  | failed
deriving DecidableEq, Repr

namespace DirectFeedService

/-- An entry of `post_ids_to_process` (the dict with `id`, `code`,
`media_type` built in the queueing loop). -/
structure QItem where
  id : String
  code : String
  media_type : Nat
deriving DecidableEq, Repr

/-- The mutable crawl state of one `get_feed` invocation: the in-memory
result list `all_posts` (post ids of the parsed posts), the
`processed_posts` set (as a list), the ids handed to
`_append_post_to_file`, the ids passed to `_fetch_single_post_info` (a log
of fetch invocations), and `posts_processed_count`. -/
structure CrawlState where
  all_posts : List String
  processed_posts : List String
  store_appends : List String
  fetch_log : List String
  posts_processed_count : Nat
deriving DecidableEq, Repr

/-- The initial crawl state. -/
def initState : CrawlState :=
  { all_posts := [], processed_posts := [], store_appends := [],
    fetch_log := [], posts_processed_count := 0 }

/-- One iteration of the processing branch: pop the head of
`post_ids_to_process`, call `_fetch_single_post_info` (consuming one oracle
entry; an exhausted oracle behaves as a failed fetch), and on a non-`None`
result parse the post, append it to `all_posts`, mark it processed, bump the
counter and append it to the file. -/
def process_item (q : QItem) (st : CrawlState) (oracle : List FetchOutcome) :
    CrawlState × List FetchOutcome :=
  let outcome := oracle.headD .failed
  let st := { st with fetch_log := st.fetch_log ++ [q.id] }
  match outcome with
  | .ok =>
      ({ st with
          all_posts := st.all_posts ++ [q.id],
          processed_posts := st.processed_posts ++ [q.id],
          store_appends := st.store_appends ++ [q.id],
          posts_processed_count := st.posts_processed_count + 1 },
        oracle.tail)
  | _ => (st, oracle.tail)

/-- The iterations of the while loop that drain `post_ids_to_process`: one
item per iteration, stopping once `posts_processed_count` reaches
`max_posts` (the `while` condition and the in-loop break). -/
def process_queue (max_posts : Nat) :
    List QItem → CrawlState → List FetchOutcome → CrawlState × List FetchOutcome
  | [], st, oracle => (st, oracle)
  | q :: rest, st, oracle =>
      if st.posts_processed_count ≥ max_posts then (st, oracle)
      else
        let (st', oracle') := process_item q st oracle
        process_queue max_posts rest st' oracle'

/-- The queueing loop over one page's `feed_items`: keep the `media_or_ad`
payloads whose id is not yet in `processed_posts`, in page order.  Duplicate
ids within one page are all queued, since ids enter `processed_posts` only
when a post is processed. -/
def queue_of_page (page : List FeedItem) (st : CrawlState) : List QItem :=
  ((page.filterMap (fun it => it.media_or_ad)).filter
      (fun m => !st.processed_posts.contains m.pk)).map
    (fun m => { id := m.pk, code := m.code, media_type := m.media_type })

/-- The outer while loop of `get_feed`: with an empty queue, fetch the next
page (an empty `feed_items` list ends the crawl); queue its unprocessed
items; drain the queue; stop when `max_posts` is reached or when the queue
is empty and no `next_max_id` remains. -/
def crawl_pages (max_posts : Nat) :
    List (List FeedItem) → CrawlState → List FetchOutcome → CrawlState
  | [], st, _ => st
  | page :: rest, st, oracle =>
      if st.posts_processed_count ≥ max_posts then st
      else if page.isEmpty then st
      else
        let queue := queue_of_page page st
        let (st', oracle') := process_queue max_posts queue st oracle
        crawl_pages max_posts rest st' oracle'

/-- `DirectFeedService.get_feed(max_posts)` over a fixed page sequence and
fetch oracle. -/
def get_feed (pages : List (List FeedItem)) (oracle : List FetchOutcome)
    (max_posts : Nat) : CrawlState :=
  crawl_pages max_posts pages initState oracle

end DirectFeedService

/-!
The JSON-file post store of `DirectFeedService`: `_initialize_feed_file`,
`_save_posts` and `_append_post_to_file`.  An on-disk file is its metadata
header plus its `posts` array; a file made unreadable by outside interference
(truncation, invalid JSON) is `corrupt`, making `json.load` raise.  Post
payloads are tracked by their post id.
-/

/-- One on-disk output file. -/
structure StoreFile where
  session_id : String
  started_at : Nat
  posts : List String
  is_fallback : Bool
deriving DecidableEq, Repr

/-- The readable content of a file, or `corrupt` when loading it raises. -/
inductive FileContent where
  | valid (f : StoreFile)
  | corrupt
deriving DecidableEq, Repr

/-- A Python exception escaping a store operation.  `attributeError` is the
`AttributeError` raised by calling the undefined method
`self._create_recovery_file`. -/
inductive PyError where
  | attributeError
deriving DecidableEq, Repr

namespace DirectFeedService

/-- The store-related fields of a `DirectFeedService` instance, plus the files
in its output directory (in creation order; `current` indexes the current
file). -/
structure StoreState where
  files : List FileContent
  current : Option Nat
  posts_in_current_file : Nat
  session_id : String
  max_posts_per_file : Nat
deriving DecidableEq, Repr

/-- `DirectFeedService._initialize_feed_file`: write a fresh file holding the
metadata header and an empty posts array, make it current, and reset the
in-file counter.  `now` stands for the timestamp in the filename and
header. -/
def initialize_feed_file (now : Nat) (st : StoreState) : StoreState :=
  { st with
      files := st.files ++ [.valid
        { session_id := st.session_id, started_at := now, posts := [],
          is_fallback := false }],
      current := some st.files.length,
      posts_in_current_file := 0 }

/-- Replace the file at index `i`. -/
def writeFile (files : List FileContent) (i : Nat) (f : StoreFile) :
    List FileContent :=
  files.set i (.valid f)

/-- Read the file at index `i`; `corrupt` (or a dangling index) makes
`json.load` raise. -/
def readFile (files : List FileContent) (i : Nat) : Option StoreFile :=
  match files.get? i with
  | some (.valid f) => some f
  | _ => Option.none

/-- `DirectFeedService._append_post_to_file`: initialize a file if none is
current, then load the current file, append the post, and write it back.
When the load or update raises, the except branch calls
`self._create_recovery_file([post])` — a method that is defined nowhere in
the class — so an `AttributeError` escapes instead, with the state as it
was (no fallback file is written, the post reaches no file). -/
def append_post_to_file (now : Nat) (post : String) (st : StoreState) :
    Except (PyError × StoreState) StoreState :=
  let st := if st.current = Option.none then initialize_feed_file now st else st
  match st.current with
  | some i =>
      match readFile st.files i with
      | some f =>
          let posts := f.posts ++ [post]
          .ok { st with
                  files := writeFile st.files i { f with posts := posts },
                  posts_in_current_file := posts.length }
      | Option.none => .error (.attributeError, st)
  | Option.none => .error (.attributeError, st)

/-- `DirectFeedService._save_posts`: nothing to do on an empty batch; rotate
to a freshly initialized file when there is no current file or the current
file already holds `max_posts_per_file` or more posts; then load the current
file, extend its posts array, and write it back.  When that load or update
raises, the except branch writes a clearly-marked fallback file holding the
batch (leaving `current_file` and the counter untouched). -/
def save_posts (now : Nat) (posts : List String) (st : StoreState) :
    Except (PyError × StoreState) StoreState :=
  if posts.isEmpty then .ok st
  else
    let st :=
      if st.current = Option.none ∨ st.posts_in_current_file ≥ st.max_posts_per_file then
        initialize_feed_file now st
      else st
    match st.current with
    | some i =>
        match readFile st.files i with
        | some f =>
            let newPosts := f.posts ++ posts
            .ok { st with
                    files := writeFile st.files i { f with posts := newPosts },
                    posts_in_current_file := newPosts.length }
        | Option.none =>
            .ok { st with
                    files := st.files ++ [.valid
                      { session_id := st.session_id, started_at := now,
                        posts := posts, is_fallback := true }] }
    | Option.none => .error (.attributeError, st)

/-- A fresh service instance's store state (no file created yet). -/
def initStore (session_id : String) (max_posts_per_file : Nat) : StoreState :=
  { files := [], current := Option.none, posts_in_current_file := 0,
    session_id := session_id, max_posts_per_file := max_posts_per_file }

/-- `n` successive single-post `_save_posts([post])` calls. -/
def save_ones (now : Nat) (post : String) :
    Nat → StoreState → Except (PyError × StoreState) StoreState
  | 0, st => .ok st
  | n + 1, st => do
      let st' ← save_posts now [post] st
      save_ones now post n st'

/-- The delay computed by `DirectFeedService._handle_rate_limit`:
`self.retry_delay * (2 ** (retry_count - 1))` (the subtraction never goes
below zero for the retry counts `1..max_retries` the crawl passes in). -/
def handle_rate_limit_delay (retry_delay retry_count : Nat) : Nat :=
  retry_delay * 2 ^ (retry_count - 1)

end DirectFeedService

namespace FeedService

/-- The delay computed by `FeedService._handle_rate_limit`
(src/backend/services/feed_service.py): `self.retry_delay * (2 ** retry_count)`
— the exponent is `retry_count`, not `retry_count - 1`. -/
def handle_rate_limit_delay (retry_delay retry_count : Nat) : Nat :=
  retry_delay * 2 ^ retry_count

end FeedService

/-!
Session persistence of `InstagramAuthenticator` (src/backend/core/auth.py).
A session file either parses to a settings blob (abstracted as a string) or
is corrupt, making the JSON load raise.  Backups carry their modification
time; `max(backup_files, key=mtime)` keeps the first file of maximal mtime
in directory order.
-/

/-- A session file on disk. -/
inductive SessionFile where
  | valid (settings : String)
  | corrupt
deriving DecidableEq, Repr

namespace InstagramAuthenticator

/-- The files `_load_session` can see: the primary session file (if present),
whether the backup directory exists, and the `session_*.json` backup files
with their modification times, in directory order. -/
structure AuthFS where
  primary : Option SessionFile
  backup_dir_exists : Bool
  backups : List (SessionFile × Nat)
deriving DecidableEq, Repr

/-- Python `max(backup_files, key=lambda p: p.stat().st_mtime)`: the first
element of maximal modification time. -/
def pickLatest : List (SessionFile × Nat) → Option (SessionFile × Nat)
  | [] => none
  | b :: rest => some (rest.foldl (fun acc x => if x.2 > acc.2 then x else acc) b)

/-- `InstagramAuthenticator._try_recover_from_backup`: `None` without a backup
directory or without backup files; otherwise load the most recently modified
backup, any exception (a corrupt backup) yielding `None`. -/
def try_recover_from_backup (fs : AuthFS) : Option String :=
  if ¬ fs.backup_dir_exists then none
  else
    match pickLatest fs.backups with
    | none => none
    | some (SessionFile.valid s, _) => some s
    | some (SessionFile.corrupt, _) => none

/-- `InstagramAuthenticator._load_session`: a missing primary file falls back
to backup recovery, as does a primary file whose JSON load raises; a
readable primary file is returned (the age check only logs). -/
def load_session (fs : AuthFS) : Option String :=
  match fs.primary with
  | none => try_recover_from_backup fs
  | some SessionFile.corrupt => try_recover_from_backup fs
  | some (SessionFile.valid s) => some s

end InstagramAuthenticator

/-!
Claim theorems.
-/

namespace DirectFeedService

/-- Store state after `j` single posts were saved into one (first) output
file. -/
def filled_store (sid post : String) (now max j : Nat) : StoreState :=
  { files := [.valid (StoreFile.mk sid now (List.replicate j post) false)],
    current := some 0, posts_in_current_file := j,
    session_id := sid, max_posts_per_file := max }

/-- Store state after rotation: the first file full with `max` posts, the
freshly initialized second file (same session id, fresh header) holding the
one post saved after the cap was reached. -/
def rotated_store (sid post : String) (now max : Nat) : StoreState :=
  { files := [.valid (StoreFile.mk sid now (List.replicate max post) false),
              .valid (StoreFile.mk sid now [post] false)],
    current := some 1, posts_in_current_file := 1,
    session_id := sid, max_posts_per_file := max }

/-- The first single-post `_save_posts` call on a fresh service creates the
file and stores the post. -/
lemma save_posts_fresh (now : Nat) (post sid : String) (max : Nat) :
    save_posts now [post] (initStore sid max)
      = .ok (filled_store sid post now max 1) := rfl

/-- Below the cap, a single-post `_save_posts` call appends into the current
file without rotating. -/
lemma save_posts_below_cap (now : Nat) (post sid : String) (max j : Nat)
    (hj : j < max) :
    save_posts now [post] (filled_store sid post now max j)
      = .ok (filled_store sid post now max (j + 1)) := by
  unfold save_posts filled_store
  rw [if_neg (by simp), if_neg (by simp; omega)]
  dsimp only [readFile, writeFile]
  simp [← List.replicate_succ']

/-- Saving single posts one at a time fills the current file while the cap is
not reached. -/
lemma save_ones_fill (now : Nat) (post sid : String) (max : Nat) :
    ∀ k j, 0 < j → j + k ≤ max →
      save_ones now post k (filled_store sid post now max j)
        = .ok (filled_store sid post now max (j + k)) := by
  intro k
  induction k with
  | zero => intro j _ _; rfl
  | succ k ih =>
      intro j hj hjk
      rw [save_ones, save_posts_below_cap now post sid max j (by omega)]
      show save_ones now post k (filled_store sid post now max (j + 1))
        = .ok (filled_store sid post now max (j + (k + 1)))
      rw [ih (j + 1) (by omega) (by omega)]
      congr 2
      omega

/-- At the cap, a single-post `_save_posts` call rotates: it initializes a
second file with the same session id and a fresh header and stores the post
there, leaving the first file untouched with its `max` posts. -/
lemma save_posts_rotate (now : Nat) (post sid : String) (max : Nat) :
    save_posts now [post] (filled_store sid post now max max)
      = .ok (rotated_store sid post now max) := by
  unfold save_posts filled_store initialize_feed_file rotated_store
  rw [if_neg (by simp), if_pos (by simp)]
  rfl

/-- Splitting a run of single-post saves. -/
lemma save_ones_add (now : Nat) (post : String) (a b : Nat)
    (st : StoreState) :
    save_ones now post (a + b) st
      = (save_ones now post a st).bind (save_ones now post b) := by
  induction a generalizing st with
  | zero =>
      rw [Nat.zero_add]
      rfl
  | succ a ih =>
      rw [Nat.succ_add]
      rw [save_ones, save_ones]
      cases hsp : save_posts now [post] st with
      | ok st' =>
          show save_ones now post (a + b) st'
            = ((Except.ok st').bind (save_ones now post a)).bind
                (save_ones now post b)
          rw [ih st']
          rfl
      | error e => rfl

end DirectFeedService

/-- C2 counterexample: with `max_posts_per_file = 1`, two successive
single-post `_append_post_to_file` calls on a fresh service produce ONE
output file holding BOTH posts — `_append_post_to_file` never consults
`max_posts_per_file`, so no rotation happens on the incremental path the
crawl uses. -/
theorem c2_append_one_never_rotates_cex :
    Except.map (fun st => (st.files.length, st.posts_in_current_file))
        ((DirectFeedService.append_post_to_file 0 "a"
            (DirectFeedService.initStore "s" 1)).bind
          (DirectFeedService.append_post_to_file 1 "b"))
      = .ok (1, 2) ∧
      ¬ Except.map (fun st => st.files.length)
          ((DirectFeedService.append_post_to_file 0 "a"
              (DirectFeedService.initStore "s" 1)).bind
            (DirectFeedService.append_post_to_file 1 "b"))
        = .ok 2 := by
  constructor
  · rfl
  · intro h
    have h2 : (1 : Nat) = 2 := Except.ok.inj h
    exact absurd h2 (by decide)

/-- C2 (amended): rotation lives on the `_save_posts` path, which checks the
cap before appending: `max_posts_per_file + 1` single-post `_save_posts`
calls from a fresh service produce exactly two output files — the first with
exactly `max_posts_per_file` posts, the second (same `session_id`, fresh
header) with the remaining one.  The incremental `_append_post_to_file`
path never rotates. -/
theorem c2_save_posts_rotation (max : Nat) (hmax : 1 ≤ max)
    (sid post : String) (now : Nat) :
    DirectFeedService.save_ones now post (max + 1)
        (DirectFeedService.initStore sid max)
      = .ok (DirectFeedService.rotated_store sid post now max) ∧
      (DirectFeedService.rotated_store sid post now max).files.length = 2 ∧
      (DirectFeedService.rotated_store sid post now max).files.get? 0
        = some (.valid (StoreFile.mk sid now
            (List.replicate max post) false)) ∧
      (DirectFeedService.rotated_store sid post now max).files.get? 1
        = some (.valid (StoreFile.mk sid now [post] false)) ∧
      (List.replicate max post).length = max := by
  refine ⟨?_, rfl, rfl, rfl, List.length_replicate max post⟩
  have e1 : DirectFeedService.save_ones now post 1
      (DirectFeedService.initStore sid max)
      = .ok (DirectFeedService.filled_store sid post now max 1) := by
    rw [DirectFeedService.save_ones, DirectFeedService.save_posts_fresh]
    rfl
  have emax : DirectFeedService.save_ones now post max
      (DirectFeedService.initStore sid max)
      = .ok (DirectFeedService.filled_store sid post now max max) := by
    have h := DirectFeedService.save_ones_add now post 1 (max - 1)
      (DirectFeedService.initStore sid max)
    rw [show 1 + (max - 1) = max by omega] at h
    rw [h, e1]
    show DirectFeedService.save_ones now post (max - 1)
        (DirectFeedService.filled_store sid post now max 1)
      = .ok (DirectFeedService.filled_store sid post now max max)
    rw [DirectFeedService.save_ones_fill now post sid max (max - 1) 1
      (by omega) (by omega)]
    congr 2
    omega
  rw [DirectFeedService.save_ones_add now post max 1, emax]
  show DirectFeedService.save_ones now post 1
      (DirectFeedService.filled_store sid post now max max) = _
  rw [DirectFeedService.save_ones, DirectFeedService.save_posts_rotate]
  rfl

/-- C2 witness: with a cap of 2, three single-post `_save_posts` calls yield
two files, the first holding exactly 2 posts. -/
theorem c2_save_posts_rotation_witness :
    (1 : Nat) ≤ 2 ∧
      (DirectFeedService.save_ones 5 "p" (2 + 1)
          (DirectFeedService.initStore "sess" 2)
        = .ok (DirectFeedService.rotated_store "sess" "p" 5 2) ∧
        (DirectFeedService.rotated_store "sess" "p" 5 2).files.length = 2 ∧
        (DirectFeedService.rotated_store "sess" "p" 5 2).files.get? 0
          = some (.valid (StoreFile.mk "sess" 5
              (List.replicate 2 "p") false)) ∧
        (DirectFeedService.rotated_store "sess" "p" 5 2).files.get? 1
          = some (.valid (StoreFile.mk "sess" 5 ["p"] false)) ∧
        (List.replicate 2 "p").length = 2) :=
  ⟨by decide, c2_save_posts_rotation 2 (by decide) "sess" "p" 5⟩


/-- C1: when a single-post append finds the current file unreadable, the
except branch calls the undefined method `self._create_recovery_file`, so an
`AttributeError` escapes `_append_post_to_file` with the store state
unchanged: no fallback or recovery file is written and the post reaches no
file. -/
theorem c1_append_failure_raises_attribute_error (now : Nat) (post : String)
    (st : DirectFeedService.StoreState) (i : Nat)
    (hcur : st.current = some i)
    (hread : DirectFeedService.readFile st.files i = none) :
    DirectFeedService.append_post_to_file now post st
      = .error (.attributeError, st) := by
  unfold DirectFeedService.append_post_to_file
  have hne : ¬ st.current = Option.none := by simp [hcur]
  simp only [hne, if_false]
  rw [hcur]
  dsimp only
  rw [hread]

/-- C1 witness: appending to a service whose current file has been corrupted
raises and leaves the corrupt file as the only file. -/
theorem c1_append_failure_raises_attribute_error_witness :
    ({ files := [.corrupt], current := some 0, posts_in_current_file := 3,
       session_id := "s", max_posts_per_file := 10 }
        : DirectFeedService.StoreState).current = some 0 ∧
      DirectFeedService.readFile [FileContent.corrupt] 0 = none ∧
      DirectFeedService.append_post_to_file 7 "x"
          { files := [.corrupt], current := some 0, posts_in_current_file := 3,
            session_id := "s", max_posts_per_file := 10 }
        = .error (.attributeError,
            { files := [.corrupt], current := some 0, posts_in_current_file := 3,
              session_id := "s", max_posts_per_file := 10 }) :=
  ⟨rfl, rfl, c1_append_failure_raises_attribute_error 7 "x" _ 0 rfl rfl⟩

/-- C9 counterexample: with a corrupt primary file and two backups — an older
valid one and a newer corrupt one — recovery picks the most recently
modified backup, fails to load it, and returns `None`, even though a valid
backup exists.  The claim's hypothesis (at least one valid backup) holds,
yet `load()` fails. -/
theorem c9_latest_backup_corrupt_cex :
    InstagramAuthenticator.load_session
        { primary := some .corrupt, backup_dir_exists := true,
          backups := [(.valid "old", 1), (.corrupt, 2)] } = none ∧
      (SessionFile.valid "old", 1) ∈
        ({ primary := some .corrupt, backup_dir_exists := true,
           backups := [(.valid "old", 1), (.corrupt, 2)] }
            : InstagramAuthenticator.AuthFS).backups := by
  exact ⟨rfl, by decide⟩

/-- C9 (amended): if the primary session file is missing or corrupt, the
backup directory exists, and the most recently modified backup file (first
in directory order among mtime ties) is valid, then `load()` returns that
backup's contents; when the most recent backup is corrupt, recovery fails
even if older valid backups exist. -/
theorem c9_load_falls_back_to_latest_backup
    (fs : InstagramAuthenticator.AuthFS) (s : String) (mt : Nat)
    (hp : fs.primary = none ∨ fs.primary = some .corrupt)
    (hdir : fs.backup_dir_exists = true)
    (hpick : InstagramAuthenticator.pickLatest fs.backups
      = some (.valid s, mt)) :
    InstagramAuthenticator.load_session fs = some s := by
  unfold InstagramAuthenticator.load_session
    InstagramAuthenticator.try_recover_from_backup
  rcases hp with hp | hp <;> rw [hp] <;> simp [hdir, hpick]

/-- C9 witness: a corrupt primary with a newer valid backup loads the
backup's contents. -/
theorem c9_load_falls_back_to_latest_backup_witness :
    (({ primary := some .corrupt, backup_dir_exists := true,
        backups := [(.corrupt, 1), (.valid "new", 2)] }
          : InstagramAuthenticator.AuthFS).primary = none ∨
      ({ primary := some .corrupt, backup_dir_exists := true,
         backups := [(.corrupt, 1), (.valid "new", 2)] }
           : InstagramAuthenticator.AuthFS).primary = some .corrupt) ∧
      InstagramAuthenticator.pickLatest
          [((SessionFile.corrupt : SessionFile), 1), (.valid "new", 2)]
        = some (.valid "new", 2) ∧
      InstagramAuthenticator.load_session
          { primary := some .corrupt, backup_dir_exists := true,
            backups := [(.corrupt, 1), (.valid "new", 2)] } = some "new" :=
  ⟨Or.inr rfl, by decide,
    c9_load_falls_back_to_latest_backup _ "new" 2 (Or.inr rfl) rfl (by decide)⟩

namespace PostScorer

/-- The user-signal component only takes the values 1, 0.3 and 0.7. -/
lemma user_signal_weight_bounds (p : Post) :
    0 ≤ calculate_user_signal_weight p ∧ calculate_user_signal_weight p ≤ 1 := by
  unfold calculate_user_signal_weight
  split_ifs <;> norm_num

/-- With nonzero followers the content-signal component is defined and only
takes the values 0.4, 0.2, 1 and 0.6. -/
lemma content_signal_weight_bounds (p : Post) (h : p.follower_count ≠ 0) :
    ∃ c, calculate_content_signal_weight p = some c ∧ 0 ≤ c ∧ c ≤ 1 := by
  unfold calculate_content_signal_weight
  dsimp only
  split_ifs with h1 h2 h3 <;>
    first
      | exact absurd h2 h
      | exact ⟨_, rfl, by norm_num⟩

/-- The keyword-relevance component only takes the values 1, 0.8 and 0.2. -/
lemma keyword_relevance_weight_bounds (p : Post) :
    0 ≤ calculate_keyword_relevance_weight p ∧
      calculate_keyword_relevance_weight p ≤ 1 := by
  unfold calculate_keyword_relevance_weight
  split_ifs <;> norm_num

/-- With nonzero followers the engagement-ratio component is defined and only
takes the values 0.8, 0.5 and 0.2. -/
lemma engagement_ratio_weight_bounds (p : Post) (h : p.follower_count ≠ 0) :
    ∃ e, calculate_engagement_ratio_weight p = some e ∧ 0 ≤ e ∧ e ≤ 1 := by
  unfold calculate_engagement_ratio_weight
  dsimp only
  split_ifs with h1 <;>
    first
      | exact absurd h1 h
      | exact ⟨_, rfl, by norm_num⟩

/-- The recency component only takes the values 1, 0.8, 0.5 and 0.2. -/
lemma recency_weight_bounds (now : Int) (p : Post) :
    0 ≤ calculate_recency_weight now p ∧ calculate_recency_weight now p ≤ 1 := by
  unfold calculate_recency_weight
  dsimp only
  split_ifs <;> norm_num

/-- Rounding to 3 decimals keeps a rational inside the unit interval. -/
lemma pyRound3_bounds {x : ℚ} (h0 : 0 ≤ x) (h1 : x ≤ 1) :
    0 ≤ pyRound3 x ∧ pyRound3 x ≤ 1 := by
  unfold pyRound3
  dsimp only
  rw [show Rat.floor (x * 1000) = ⌊x * 1000⌋ from by
    rw [Rat.floor_def', Rat.floor_def]]
  have hy0 : (0 : ℚ) ≤ x * 1000 := by positivity
  have hy1 : x * 1000 ≤ 1000 := by linarith
  have hn0 : (0 : ℤ) ≤ ⌊x * 1000⌋ := Int.floor_nonneg.mpr hy0
  have hn1 : ⌊x * 1000⌋ ≤ 1000 := by
    have h := Int.floor_le_floor (α := ℚ) hy1
    simpa using h
  have hfl : (⌊x * 1000⌋ : ℚ) ≤ x * 1000 := Int.floor_le _
  have hbounds : ∀ m : ℤ, 0 ≤ m → m ≤ 1000 →
      (0 : ℚ) ≤ (m : ℚ) / 1000 ∧ (m : ℚ) / 1000 ≤ 1 := by
    intro m hm0 hm1
    constructor
    · positivity
    · rw [div_le_one (by norm_num)]
      exact_mod_cast hm1
  split_ifs with hlt hgt heven
  · exact hbounds _ hn0 hn1
  all_goals {
    refine hbounds _ (by omega) ?_
    have hhalf : (⌊x * 1000⌋ : ℚ) + 1/2 ≤ x * 1000 := by
      push_neg at hlt
      linarith
    have hlt1000 : (⌊x * 1000⌋ : ℚ) < 1000 := by linarith
    have : ⌊x * 1000⌋ < 1000 := by exact_mod_cast hlt1000
    omega
  }

/-- The weighted sum of five components from the unit interval, with the five
source weights, stays inside the unit interval. -/
lemma weighted_sum_bounds {u c k e r : ℚ}
    (hu0 : 0 ≤ u) (hu1 : u ≤ 1) (hc0 : 0 ≤ c) (hc1 : c ≤ 1)
    (hk0 : 0 ≤ k) (hk1 : k ≤ 1) (he0 : 0 ≤ e) (he1 : e ≤ 1)
    (hr0 : 0 ≤ r) (hr1 : r ≤ 1) :
    0 ≤ u * weights_user_signal + c * weights_content_signal +
        k * weights_keyword_relevance + e * weights_engagement_ratio +
        r * weights_recency ∧
      u * weights_user_signal + c * weights_content_signal +
        k * weights_keyword_relevance + e * weights_engagement_ratio +
        r * weights_recency ≤ 1 := by
  unfold weights_user_signal weights_content_signal weights_keyword_relevance
    weights_engagement_ratio weights_recency
  constructor <;> nlinarith

end PostScorer

/-- C8: for every post with positive `follower_count` (so both divisions are
defined), each of the five component scores lies in the unit interval and
the rounded weighted final score lies in the unit interval. -/
theorem c8_component_and_final_score_bounds (p : PostScorer.Post) (now : Int)
    (h : 0 < p.follower_count) :
    ∃ c e f,
      PostScorer.calculate_content_signal_weight p = some c ∧
      PostScorer.calculate_engagement_ratio_weight p = some e ∧
      PostScorer.calculate_final_score now p = some f ∧
      (0 ≤ PostScorer.calculate_user_signal_weight p ∧
        PostScorer.calculate_user_signal_weight p ≤ 1) ∧
      (0 ≤ c ∧ c ≤ 1) ∧
      (0 ≤ PostScorer.calculate_keyword_relevance_weight p ∧
        PostScorer.calculate_keyword_relevance_weight p ≤ 1) ∧
      (0 ≤ e ∧ e ≤ 1) ∧
      (0 ≤ PostScorer.calculate_recency_weight now p ∧
        PostScorer.calculate_recency_weight now p ≤ 1) ∧
      (0 ≤ f ∧ f ≤ 1) := by
  have hne : p.follower_count ≠ 0 := by omega
  obtain ⟨c, hc, hc0, hc1⟩ := PostScorer.content_signal_weight_bounds p hne
  obtain ⟨e, he, he0, he1⟩ := PostScorer.engagement_ratio_weight_bounds p hne
  obtain ⟨hu0, hu1⟩ := PostScorer.user_signal_weight_bounds p
  obtain ⟨hk0, hk1⟩ := PostScorer.keyword_relevance_weight_bounds p
  obtain ⟨hr0, hr1⟩ := PostScorer.recency_weight_bounds now p
  obtain ⟨hs0, hs1⟩ := PostScorer.weighted_sum_bounds hu0 hu1 hc0 hc1 hk0 hk1
    he0 he1 hr0 hr1
  obtain ⟨hf0, hf1⟩ := PostScorer.pyRound3_bounds hs0 hs1
  refine ⟨c, e, _, hc, he, ?_, ⟨hu0, hu1⟩, ⟨hc0, hc1⟩, ⟨hk0, hk1⟩,
    ⟨he0, he1⟩, ⟨hr0, hr1⟩, ⟨hf0, hf1⟩⟩
  unfold PostScorer.calculate_final_score
  rw [hc, he]
  rfl

/-- C8 witness: the bounds theorem applied to a concrete verified author with
500 engagements on 10000 followers. -/
theorem c8_component_and_final_score_bounds_witness :
    (0 : Int) <
        ({ post_id := "9", user_id := "u", is_close_friend := false,
           is_verified := true, caption := some "hello",
           engagement_count := 500, follower_count := 10000,
           created_at := 0 } : PostScorer.Post).follower_count ∧
      ∃ f, PostScorer.calculate_final_score 86400
          { post_id := "9", user_id := "u", is_close_friend := false,
            is_verified := true, caption := some "hello",
            engagement_count := 500, follower_count := 10000,
            created_at := 0 } = some f ∧ 0 ≤ f ∧ f ≤ 1 := by
  refine ⟨by norm_num, ?_⟩
  obtain ⟨c, e, f, _, _, hf, _, _, _, _, _, hfb⟩ :=
    c8_component_and_final_score_bounds
      { post_id := "9", user_id := "u", is_close_friend := false,
        is_verified := true, caption := some "hello",
        engagement_count := 500, follower_count := 10000,
        created_at := 0 } 86400 (by norm_num)
  exact ⟨f, hf, hfb⟩

namespace DirectFeedService

/-- Claim signal 1: explicit ad flag. -/
def signal_ad_flag (raw : PyVal) : Bool := (raw.get "is_ad" (.bool false)).truthy

/-- Claim signal 2: paid-partnership flag. -/
def signal_paid_partnership (raw : PyVal) : Bool :=
  (raw.get "is_paid_partnership" (.bool false)).truthy

/-- Claim signal 3: injected ad id. -/
def signal_injected_ad_id (raw : PyVal) : Bool :=
  ((raw.get "injected" (.dict [])).get "ad_id" .none).truthy

/-- Claim signal 4: non-empty ad action or ad link type. -/
def signal_ad_action_or_link (raw : PyVal) : Bool :=
  (raw.get "ad_action" (.str "")).neqEmptyStr || (raw.get "ad_link_type" .none).truthy

/-- Claim signal 5: branded-content tag. -/
def signal_branded_content (raw : PyVal) : Bool :=
  (raw.get "branded_content_tag_info" .none).truthy

/-- Claim signal 6: non-empty sponsor tags. -/
def signal_sponsor_tags (raw : PyVal) : Bool :=
  (raw.get "sponsor_tags" .none).truthy
    && decide ((raw.get "sponsor_tags" (.list [])).pyLen > 0)

/-- Claim signal 7: ad-display-context field present. -/
def signal_ad_display_context (raw : PyVal) : Bool :=
  raw.hasKey "ad_display_context"

/-- Claim signal 8 as the claim words it: commerce-promotion field PRESENT.
The source instead requires the field's value to be truthy. -/
def signal_commerce_promotion_present (raw : PyVal) : Bool :=
  raw.hasKey "commerce_promotion"

/-- Amended signal 8: commerce-promotion field with a truthy value (what the
source checks). -/
def signal_commerce_promotion (raw : PyVal) : Bool :=
  (raw.get "commerce_promotion" .none).truthy

/-- Claim signal 9: the "PAID_PARTNERSHIP" label. -/
def signal_paid_partnership_label (raw : PyVal) : Bool :=
  (raw.get "label_type" .none).eqStr "PAID_PARTNERSHIP"

/-- Claim signal 10: more than 3 shopping/product tags (the source requires
both tag containers and counts the entries under `product_tags.in`). -/
def signal_shopping_tags (raw : PyVal) : Bool :=
  (raw.get "product_tags" .none).truthy
    && (raw.get "shopping_product_tags" .none).truthy
    && decide (((raw.get "product_tags" (.dict [])).get "in" (.list [])).pyLen > 3)

/-- The ten sponsorship signals exactly as the claim lists them. -/
def claim_signals (raw : PyVal) : List Bool :=
  [signal_ad_flag raw, signal_paid_partnership raw, signal_injected_ad_id raw,
   signal_ad_action_or_link raw, signal_branded_content raw,
   signal_sponsor_tags raw, signal_ad_display_context raw,
   signal_commerce_promotion_present raw, signal_paid_partnership_label raw,
   signal_shopping_tags raw]

/-- The ten signals with the commerce-promotion one amended to the source's
truthiness check. -/
def amended_signals (raw : PyVal) : List Bool :=
  [signal_ad_flag raw, signal_paid_partnership raw, signal_injected_ad_id raw,
   signal_ad_action_or_link raw, signal_branded_content raw,
   signal_sponsor_tags raw, signal_ad_display_context raw,
   signal_commerce_promotion raw, signal_paid_partnership_label raw,
   signal_shopping_tags raw]

/-- `_is_sponsored_post` as the disjunction of its twelve early-return
conditions, in source order. -/
lemma is_sponsored_post_eq_or (raw : PyVal) :
    is_sponsored_post raw =
      ((raw.get "is_ad" (.bool false)).truthy ||
       (raw.get "is_paid_partnership" (.bool false)).truthy ||
       ((raw.get "injected" (.dict [])).get "ad_id" .none).truthy ||
       (raw.get "ad_action" (.str "")).neqEmptyStr ||
       (raw.get "ad_id" .none).truthy ||
       (raw.get "ad_link_type" .none).truthy ||
       (raw.get "branded_content_tag_info" .none).truthy ||
       ((raw.get "sponsor_tags" .none).truthy
         && decide ((raw.get "sponsor_tags" (.list [])).pyLen > 0)) ||
       raw.hasKey "ad_display_context" ||
       (raw.get "commerce_promotion" .none).truthy ||
       (raw.get "label_type" .none).eqStr "PAID_PARTNERSHIP" ||
       ((raw.get "product_tags" .none).truthy
         && (raw.get "shopping_product_tags" .none).truthy
         && decide (((raw.get "product_tags" (.dict [])).get "in"
              (.list [])).pyLen > 3))) := by
  unfold is_sponsored_post
  simp only [Bool.if_true_left, Bool.if_false_right, Bool.decide_eq_true,
    Bool.and_true, Bool.or_assoc, Bool.and_assoc]

/-- Any single amended signal forces `_is_sponsored_post` to return true
(each signal implies one of the early-return conditions, and every
early-return branch yields true). -/
lemma any_amended_signal_sponsored (raw : PyVal)
    (h : (amended_signals raw).any (fun b => b) = true) :
    is_sponsored_post raw = true := by
  rw [is_sponsored_post_eq_or]
  simp only [amended_signals, List.any_cons, List.any_nil, Bool.or_false,
    Bool.or_eq_true, Bool.and_eq_true, signal_ad_flag, signal_paid_partnership,
    signal_injected_ad_id, signal_ad_action_or_link, signal_branded_content,
    signal_sponsor_tags, signal_ad_display_context, signal_commerce_promotion,
    signal_paid_partnership_label, signal_shopping_tags] at h ⊢
  tauto

end DirectFeedService

/-- C5 counterexample: a payload whose only claim-listed signal is a PRESENT
commerce-promotion field (with value `None`) sets exactly one of the claim's
signals, yet `_is_sponsored_post` returns false — the source requires the
field's value to be truthy, not merely present. -/
theorem c5_commerce_promotion_present_cex :
    (DirectFeedService.claim_signals
        (PyVal.dict [("commerce_promotion", PyVal.none)])).countP (fun b => b)
        = 1 ∧
      DirectFeedService.is_sponsored_post
        (PyVal.dict [("commerce_promotion", PyVal.none)]) = false := by
  decide

/-- C5 (amended): for every payload in which exactly one of the ten listed
signals is set — with the commerce-promotion signal read as "field present
with a truthy value" — and all others are absent, `_is_sponsored_post`
returns true. -/
theorem c5_single_signal_sponsored (raw : PyVal) (i : Fin 10)
    (hset : (DirectFeedService.amended_signals raw).getD i.val false = true)
    (_hothers : ∀ j : Fin 10, j ≠ i →
      (DirectFeedService.amended_signals raw).getD j.val false = false) :
    DirectFeedService.is_sponsored_post raw = true := by
  apply DirectFeedService.any_amended_signal_sponsored
  have hlen : (DirectFeedService.amended_signals raw).length = 10 := by
    simp [DirectFeedService.amended_signals]
  have hmem : (DirectFeedService.amended_signals raw).getD i.val false ∈
      DirectFeedService.amended_signals raw := by
    rw [List.getD_eq_getElem _ _ (by omega)]
    exact List.getElem_mem _
  rw [List.any_eq_true]
  exact ⟨_, hmem, hset⟩

/-- C5 witness: a payload carrying only the explicit ad flag sets exactly the
first signal and is classified as sponsored. -/
theorem c5_single_signal_sponsored_witness :
    (DirectFeedService.amended_signals
        (PyVal.dict [("is_ad", PyVal.bool true)])).getD (0 : Fin 10).val false
        = true ∧
      (∀ j : Fin 10, j ≠ (0 : Fin 10) →
        (DirectFeedService.amended_signals
            (PyVal.dict [("is_ad", PyVal.bool true)])).getD j.val false
            = false) ∧
      DirectFeedService.is_sponsored_post
        (PyVal.dict [("is_ad", PyVal.bool true)]) = true :=
  ⟨by decide, by decide,
    c5_single_signal_sponsored (PyVal.dict [("is_ad", PyVal.bool true)]) 0
      (by decide) (by decide)⟩

namespace DirectFeedService

/-- The post ids a page offers (its items carrying a `media_or_ad` payload),
in page order. -/
def page_pks (page : List FeedItem) : List String :=
  (page.filterMap FeedItem.media_or_ad).map RawMedia.pk

/-- The ids of the queue built from one page are the page's unprocessed pks. -/
lemma queue_of_page_map_id (page : List FeedItem) (st : CrawlState) :
    (queue_of_page page st).map QItem.id =
      ((page.filterMap FeedItem.media_or_ad).filter
          (fun m => !st.processed_posts.contains m.pk)).map RawMedia.pk := by
  simp [queue_of_page, List.map_map]

/-- Draining the queue preserves: the result list has no duplicate ids and
every id in the result list has been marked processed — provided the queue
ids are themselves duplicate-free and none of them is already processed. -/
lemma process_queue_inv (max_posts : Nat) (queue : List QItem)
    (st : CrawlState) (oracle : List FetchOutcome)
    (h1 : st.all_posts.Nodup)
    (h2 : ∀ x ∈ st.all_posts, x ∈ st.processed_posts)
    (h3 : (queue.map QItem.id).Nodup)
    (h4 : ∀ q ∈ queue, q.id ∉ st.processed_posts) :
    (process_queue max_posts queue st oracle).1.all_posts.Nodup ∧
      ∀ x ∈ (process_queue max_posts queue st oracle).1.all_posts,
        x ∈ (process_queue max_posts queue st oracle).1.processed_posts := by
  induction queue generalizing st oracle with
  | nil => exact ⟨h1, h2⟩
  | cons q rest ih =>
      rw [process_queue]
      by_cases hcnt : st.posts_processed_count ≥ max_posts
      · simp only [hcnt, if_true]
        exact ⟨h1, h2⟩
      · simp only [hcnt, if_false]
        have hqid : q.id ∉ st.processed_posts := h4 q (List.mem_cons_self q rest)
        have hqall : q.id ∉ st.all_posts := fun hmem => hqid (h2 _ hmem)
        have hqrest : q.id ∉ rest.map QItem.id := (List.nodup_cons.mp h3).1
        have h3' : (rest.map QItem.id).Nodup := (List.nodup_cons.mp h3).2
        unfold process_item
        cases ho : oracle.headD .failed with
        | ok =>
            apply ih
            · simpa [List.nodup_append] using ⟨h1, hqall⟩
            · intro x hx
              rcases List.mem_append.mp hx with hx | hx
              · exact List.mem_append.mpr (Or.inl (h2 _ hx))
              · exact List.mem_append.mpr (Or.inr hx)
            · exact h3'
            · intro q' hq' hmem
              rcases List.mem_append.mp hmem with hmem | hmem
              · exact h4 q' (List.mem_cons_of_mem _ hq') hmem
              · have : q'.id = q.id := by simpa using hmem
                exact hqrest (this ▸ List.mem_map_of_mem QItem.id hq')
        | sponsored =>
            apply ih
            · exact h1
            · exact h2
            · exact h3'
            · exact fun q' hq' => h4 q' (List.mem_cons_of_mem _ hq')
        | failed =>
            apply ih
            · exact h1
            · exact h2
            · exact h3'
            · exact fun q' hq' => h4 q' (List.mem_cons_of_mem _ hq')

/-- The page loop preserves the duplicate-freeness of the result list when
every page is internally duplicate-free. -/
lemma crawl_pages_nodup (max_posts : Nat) (pages : List (List FeedItem))
    (st : CrawlState) (oracle : List FetchOutcome)
    (hp : ∀ page ∈ pages, (page_pks page).Nodup)
    (h1 : st.all_posts.Nodup)
    (h2 : ∀ x ∈ st.all_posts, x ∈ st.processed_posts) :
    (crawl_pages max_posts pages st oracle).all_posts.Nodup := by
  induction pages generalizing st oracle with
  | nil => exact h1
  | cons page rest ih =>
      rw [crawl_pages]
      by_cases hcnt : st.posts_processed_count ≥ max_posts
      · simpa [hcnt] using h1
      · by_cases hemp : page.isEmpty
        · simpa [hcnt, hemp] using h1
        · simp only [hcnt, hemp, if_false, Bool.false_eq_true]
          have h3 : ((queue_of_page page st).map QItem.id).Nodup := by
            rw [queue_of_page_map_id]
            exact ((List.filter_sublist _).map RawMedia.pk).nodup
              (hp page (List.mem_cons_self _ _))
          have h4 : ∀ q ∈ queue_of_page page st,
              q.id ∉ st.processed_posts := by
            intro q hq
            simp only [queue_of_page, List.mem_map, List.mem_filter] at hq
            obtain ⟨m, ⟨-, hcontains⟩, rfl⟩ := hq
            simpa using hcontains
          obtain ⟨h1', h2'⟩ :=
            process_queue_inv max_posts (queue_of_page page st) st oracle
              h1 h2 h3 h4
          exact ih _ _ (fun p hp' => hp p (List.mem_cons_of_mem _ hp')) h1' h2'

end DirectFeedService

/-- C4 counterexample: a single page that serves the same (non-sponsored,
successfully fetched) item twice queues the id twice — the queueing loop
only checks `processed_posts`, which the id enters after the first item is
processed, not at queueing time — so the crawl's result list contains the
id twice. -/
theorem c4_within_page_duplicate_cex :
    (DirectFeedService.get_feed
        [[{ media_or_ad := some { pk := "1", code := "c", media_type := 1 } },
          { media_or_ad := some { pk := "1", code := "c", media_type := 1 } }]]
        [.ok, .ok] 50).all_posts = ["1", "1"] ∧
      ¬ (DirectFeedService.get_feed
          [[{ media_or_ad := some { pk := "1", code := "c", media_type := 1 } },
            { media_or_ad := some { pk := "1", code := "c", media_type := 1 } }]]
          [.ok, .ok] 50).all_posts.Nodup := by
  constructor
  · rfl
  · decide

/-- C4 (amended): for every page sequence in which no single page serves the
same `post_id` twice, and every fetch-outcome sequence and post budget, the
crawl's result list contains no two entries with the same `post_id` — the
dedup holds across pages that re-serve an already processed item, but not
within one page. -/
theorem c4_no_duplicate_post_ids (pages : List (List FeedItem))
    (oracle : List FetchOutcome) (max_posts : Nat)
    (hp : ∀ page ∈ pages, (DirectFeedService.page_pks page).Nodup) :
    (DirectFeedService.get_feed pages oracle max_posts).all_posts.Nodup := by
  unfold DirectFeedService.get_feed
  exact DirectFeedService.crawl_pages_nodup max_posts pages
    DirectFeedService.initState oracle hp List.nodup_nil (by intro x hx; cases hx)

/-- C4 witness: two pages serving distinct ids, the second re-serving the
first page's id, still yield a duplicate-free result list. -/
theorem c4_no_duplicate_post_ids_witness :
    (∀ page ∈
        [[{ media_or_ad := some { pk := "1", code := "a", media_type := 1 } },
          { media_or_ad := some { pk := "2", code := "b", media_type := 1 } }],
         [{ media_or_ad := some { pk := "1", code := "a", media_type := 1 } }]],
        (DirectFeedService.page_pks page).Nodup) ∧
      (DirectFeedService.get_feed
          [[{ media_or_ad := some { pk := "1", code := "a", media_type := 1 } },
            { media_or_ad := some { pk := "2", code := "b", media_type := 1 } }],
           [{ media_or_ad := some { pk := "1", code := "a", media_type := 1 } }]]
          [.ok, .ok, .ok] 50).all_posts.Nodup :=
  ⟨by decide, c4_no_duplicate_post_ids _ [.ok, .ok, .ok] 50 (by decide)⟩

/-- C6 counterexample: a sponsored item's id is NOT added to
`processed_posts` (`_fetch_single_post_info` returns `None`, and only the
`if post_data:` branch marks ids processed), so the same sponsored item
re-served on a later page is fetched and processed again: over two pages
each re-serving sponsored post "1", the fetch log shows two fetches and the
processed set stays empty. -/
theorem c6_sponsored_refetched_cex :
    (DirectFeedService.get_feed
        [[{ media_or_ad := some { pk := "1", code := "c", media_type := 1 } }],
         [{ media_or_ad := some { pk := "1", code := "c", media_type := 1 } }]]
        [.sponsored, .sponsored] 50).fetch_log = ["1", "1"] ∧
      "1" ∉ (DirectFeedService.get_feed
          [[{ media_or_ad := some { pk := "1", code := "c", media_type := 1 } }],
           [{ media_or_ad := some { pk := "1", code := "c", media_type := 1 } }]]
          [.sponsored, .sponsored] 50).processed_posts := by
  constructor
  · rfl
  · decide

/-- C6 (amended): an item whose fetch classifies it as sponsored is skipped —
the result list, the store appends, the processed set and the processed
count are all unchanged; only the fetch log grows.  In particular its id is
NOT added to `processed_post_ids`, so a later re-serve fetches it again. -/
theorem c6_sponsored_item_skipped (q : DirectFeedService.QItem)
    (st : DirectFeedService.CrawlState) (oracle : List FetchOutcome)
    (h : oracle.headD .failed = .sponsored) :
    (DirectFeedService.process_item q st oracle).1.all_posts = st.all_posts ∧
      (DirectFeedService.process_item q st oracle).1.store_appends
        = st.store_appends ∧
      (DirectFeedService.process_item q st oracle).1.processed_posts
        = st.processed_posts ∧
      (DirectFeedService.process_item q st oracle).1.posts_processed_count
        = st.posts_processed_count ∧
      (DirectFeedService.process_item q st oracle).1.fetch_log
        = st.fetch_log ++ [q.id] := by
  unfold DirectFeedService.process_item
  rw [h]
  exact ⟨rfl, rfl, rfl, rfl, rfl⟩

/-- C6 witness: the sponsored-skip theorem at a concrete item and state. -/
theorem c6_sponsored_item_skipped_witness :
    ([FetchOutcome.sponsored].headD .failed = .sponsored) ∧
      ((DirectFeedService.process_item { id := "7", code := "z", media_type := 1 }
          DirectFeedService.initState [FetchOutcome.sponsored]).1.all_posts
        = DirectFeedService.initState.all_posts ∧
      (DirectFeedService.process_item { id := "7", code := "z", media_type := 1 }
          DirectFeedService.initState [FetchOutcome.sponsored]).1.store_appends
        = DirectFeedService.initState.store_appends ∧
      (DirectFeedService.process_item { id := "7", code := "z", media_type := 1 }
          DirectFeedService.initState [FetchOutcome.sponsored]).1.processed_posts
        = DirectFeedService.initState.processed_posts ∧
      (DirectFeedService.process_item { id := "7", code := "z", media_type := 1 }
          DirectFeedService.initState [FetchOutcome.sponsored]).1.posts_processed_count
        = DirectFeedService.initState.posts_processed_count ∧
      (DirectFeedService.process_item { id := "7", code := "z", media_type := 1 }
          DirectFeedService.initState [FetchOutcome.sponsored]).1.fetch_log
        = DirectFeedService.initState.fetch_log ++ ["7"]) :=
  ⟨rfl, c6_sponsored_item_skipped _ DirectFeedService.initState
    [FetchOutcome.sponsored] rfl⟩

/-- C7 counterexample: the claim covers both cited implementations, but
`FeedService._handle_rate_limit` waits `base_delay * 2 ^ retry_count`: at
`retry_count = 1` and `base_delay = 10` it waits 20 seconds, not
`10 * 2 ^ 0 = 10` as the claimed formula requires. -/
theorem c7_feed_service_backoff_cex :
    FeedService.handle_rate_limit_delay 10 1 = 20 ∧
      FeedService.handle_rate_limit_delay 10 1 ≠ 10 * 2 ^ (1 - 1) := by
  decide

/-- C7 (amended): for every retry_count `n ≥ 1` and base delay `> 0`,
`DirectFeedService._handle_rate_limit` waits exactly
`base_delay * 2 ^ (n - 1)` and its delays strictly increase with `n`;
`FeedService._handle_rate_limit` instead waits `base_delay * 2 ^ n`, also
strictly increasing. -/
theorem c7_backoff_exponential (base n : Nat) (hn : 1 ≤ n) (hb : 0 < base) :
    DirectFeedService.handle_rate_limit_delay base n = base * 2 ^ (n - 1) ∧
      DirectFeedService.handle_rate_limit_delay base n <
        DirectFeedService.handle_rate_limit_delay base (n + 1) ∧
      FeedService.handle_rate_limit_delay base n = base * 2 ^ n ∧
      FeedService.handle_rate_limit_delay base n <
        FeedService.handle_rate_limit_delay base (n + 1) := by
  refine ⟨rfl, ?_, rfl, ?_⟩
  · unfold DirectFeedService.handle_rate_limit_delay
    have h1 : n + 1 - 1 = (n - 1) + 1 := by omega
    rw [h1, pow_succ, ← Nat.mul_assoc]
    have h2 : 0 < 2 ^ (n - 1) := Nat.pos_pow_of_pos _ (by omega)
    have hpos : 0 < base * 2 ^ (n - 1) := Nat.mul_pos hb h2
    omega
  · unfold FeedService.handle_rate_limit_delay
    rw [pow_succ, ← Nat.mul_assoc]
    have h2 : 0 < 2 ^ n := Nat.pos_pow_of_pos _ (by omega)
    have hpos : 0 < base * 2 ^ n := Nat.mul_pos hb h2
    omega

/-- C3: with `follower_count = 0`, `calculate_engagement_ratio_weight`
evaluates the unguarded division `engagement_count / follower_count` and
raises `ZeroDivisionError` (modelled as `none`) instead of returning the
else-bucket value 0.2, and `score_post` on such a post raises as well. -/
theorem c3_zero_followers_division_raises (p : PostScorer.Post) (now : Int)
    (h : p.follower_count = 0) :
    PostScorer.calculate_engagement_ratio_weight p = none ∧
      PostScorer.score_post now p = none := by
  have hrat : ∀ q : PostScorer.Post, q.follower_count = 0 →
      PostScorer.calculate_engagement_ratio_weight q = none := by
    intro q hq
    simp [PostScorer.calculate_engagement_ratio_weight, hq]
  refine ⟨hrat p h, ?_⟩
  unfold PostScorer.score_post
  have hfoll : (PostScorer.apply_event_detection p).follower_count = 0 := by
    unfold PostScorer.apply_event_detection
    split <;> simpa using h
  cases hc : PostScorer.calculate_content_signal_weight
      (PostScorer.apply_event_detection p) with
  | none => simp [hc]
  | some c => simp [hc, hrat _ hfoll]

/-- C3 witness: a concrete post with 100 engagements and 0 followers makes
both the engagement-ratio component and `score_post` raise. -/
theorem c3_zero_followers_division_raises_witness :
    ({ post_id := "1", user_id := "u", is_close_friend := false,
       is_verified := true, caption := none, engagement_count := 100,
       follower_count := 0, created_at := 0 } : PostScorer.Post).follower_count
        = 0 ∧
      (PostScorer.calculate_engagement_ratio_weight
          { post_id := "1", user_id := "u", is_close_friend := false,
            is_verified := true, caption := none, engagement_count := 100,
            follower_count := 0, created_at := 0 } = none ∧
        PostScorer.score_post 0
          { post_id := "1", user_id := "u", is_close_friend := false,
            is_verified := true, caption := none, engagement_count := 100,
            follower_count := 0, created_at := 0 } = none) :=
  ⟨rfl, c3_zero_followers_division_raises _ 0 rfl⟩

/-- C7 witness: the amended backoff theorem at `base_delay = 10`,
`retry_count = 3`. -/
theorem c7_backoff_exponential_witness :
    DirectFeedService.handle_rate_limit_delay 10 3 = 10 * 2 ^ (3 - 1) ∧
      DirectFeedService.handle_rate_limit_delay 10 3 <
        DirectFeedService.handle_rate_limit_delay 10 (3 + 1) ∧
      FeedService.handle_rate_limit_delay 10 3 = 10 * 2 ^ 3 ∧
      FeedService.handle_rate_limit_delay 10 3 <
        FeedService.handle_rate_limit_delay 10 (3 + 1) :=
  c7_backoff_exponential 10 3 (by decide) (by decide)

namespace PostScorer

/-- A successful `score_post` returns, as its first component, exactly the
post after the event-detection mutation. -/
lemma score_post_some_fst (now : Int) (p p' : Post)
    (cs : List (String × ℚ)) (f : ℚ)
    (h : score_post now p = some (p', (cs, f))) :
    p' = apply_event_detection p := by
  unfold score_post at h
  dsimp only at h
  cases hc : calculate_content_signal_weight (apply_event_detection p) with
  | none => simp [hc] at h
  | some cv =>
      cases he : calculate_engagement_ratio_weight (apply_event_detection p) with
      | none => simp [hc, he] at h
      | some ev =>
          cases hf : calculate_final_score now (apply_event_detection p) with
          | none => simp [hc, he, hf] at h
          | some fv =>
              rw [hc, he, hf] at h
              have h' : (some (apply_event_detection p,
                  ([("user_signal",
                      calculate_user_signal_weight (apply_event_detection p)),
                    ("content_signal", cv),
                    ("keyword_relevance",
                      calculate_keyword_relevance_weight (apply_event_detection p)),
                    ("engagement_ratio", ev),
                    ("recency", calculate_recency_weight now (apply_event_detection p))],
                   fv)) : Option (Post × (List (String × ℚ) × ℚ)))
                  = some (p', cs, f) := h
              exact (congrArg Prod.fst (Option.some.inj h')).symm

end PostScorer

/-- C10 counterexample: `score_post` is NOT pure with respect to its input:
on a post with caption "event" and `has_event_indicators = false`, the
source mutates the post before scoring, and after the call the post's
`has_event_indicators` field is `true`. -/
theorem c10_score_post_mutates_input_cex :
    (PostScorer.score_post 86400
          { post_id := "123", user_id := "u", is_close_friend := true,
            is_verified := false, caption := some "event",
            engagement_count := 0, follower_count := 10,
            created_at := 0 }).map (fun pr => pr.1.has_event_indicators)
        = some true ∧
      ({ post_id := "123", user_id := "u", is_close_friend := true,
         is_verified := false, caption := some "event",
         engagement_count := 0, follower_count := 10,
         created_at := 0 } : PostScorer.Post).has_event_indicators = false := by
  refine ⟨?_, rfl⟩
  have hp' : PostScorer.apply_event_detection
      { post_id := "123", user_id := "u", is_close_friend := true,
        is_verified := false, caption := some "event",
        engagement_count := 0, follower_count := 10, created_at := 0 }
      = { post_id := "123", user_id := "u", is_close_friend := true,
          is_verified := false, caption := some "event",
          engagement_count := 0, follower_count := 10, created_at := 0,
          has_event_indicators := true, event_keywords := some ["event"] } := by
    decide
  obtain ⟨cv, hc, -, -⟩ := PostScorer.content_signal_weight_bounds
    (PostScorer.apply_event_detection
      { post_id := "123", user_id := "u", is_close_friend := true,
        is_verified := false, caption := some "event",
        engagement_count := 0, follower_count := 10, created_at := 0 })
    (by rw [hp']; norm_num)
  obtain ⟨ev, he, -, -⟩ := PostScorer.engagement_ratio_weight_bounds
    (PostScorer.apply_event_detection
      { post_id := "123", user_id := "u", is_close_friend := true,
        is_verified := false, caption := some "event",
        engagement_count := 0, follower_count := 10, created_at := 0 })
    (by rw [hp']; norm_num)
  have hf : ∃ fv, PostScorer.calculate_final_score 86400
      (PostScorer.apply_event_detection
        { post_id := "123", user_id := "u", is_close_friend := true,
          is_verified := false, caption := some "event",
          engagement_count := 0, follower_count := 10, created_at := 0 })
      = some fv := by
    unfold PostScorer.calculate_final_score
    rw [hc, he]
    exact ⟨_, rfl⟩
  obtain ⟨fv, hfv⟩ := hf
  have hsc : PostScorer.score_post 86400
      { post_id := "123", user_id := "u", is_close_friend := true,
        is_verified := false, caption := some "event",
        engagement_count := 0, follower_count := 10, created_at := 0 }
      = some (PostScorer.apply_event_detection
          { post_id := "123", user_id := "u", is_close_friend := true,
            is_verified := false, caption := some "event",
            engagement_count := 0, follower_count := 10, created_at := 0 },
          ([("user_signal", PostScorer.calculate_user_signal_weight
              (PostScorer.apply_event_detection
                { post_id := "123", user_id := "u", is_close_friend := true,
                  is_verified := false, caption := some "event",
                  engagement_count := 0, follower_count := 10,
                  created_at := 0 })),
            ("content_signal", cv),
            ("keyword_relevance", PostScorer.calculate_keyword_relevance_weight
              (PostScorer.apply_event_detection
                { post_id := "123", user_id := "u", is_close_friend := true,
                  is_verified := false, caption := some "event",
                  engagement_count := 0, follower_count := 10,
                  created_at := 0 })),
            ("engagement_ratio", ev),
            ("recency", PostScorer.calculate_recency_weight 86400
              (PostScorer.apply_event_detection
                { post_id := "123", user_id := "u", is_close_friend := true,
                  is_verified := false, caption := some "event",
                  engagement_count := 0, follower_count := 10,
                  created_at := 0 }))],
           fv)) := by
    unfold PostScorer.score_post
    dsimp only
    rw [hc, he, hfv]
    rfl
  rw [hsc, Option.map_some', hp']

/-- C10 (amended): `score_post` leaves every field of the input post
unchanged EXCEPT `has_event_indicators` and `event_keywords`: those two are
overwritten with the caption's detection results whenever the caption is
truthy (non-`None`, non-empty), and only then; with a falsy caption the post
is returned entirely unchanged. -/
theorem c10_score_post_frame (now : Int) (p p' : PostScorer.Post)
    (cs : List (String × ℚ)) (f : ℚ)
    (h : PostScorer.score_post now p = some (p', (cs, f))) :
    p'.post_id = p.post_id ∧ p'.user_id = p.user_id ∧
      p'.is_close_friend = p.is_close_friend ∧
      p'.is_verified = p.is_verified ∧
      p'.caption = p.caption ∧
      p'.engagement_count = p.engagement_count ∧
      p'.follower_count = p.follower_count ∧
      p'.created_at = p.created_at ∧
      (PostScorer.captionTruthy p.caption = false → p' = p) ∧
      (PostScorer.captionTruthy p.caption = true →
        p'.has_event_indicators
            = (PostScorer.detect_event_indicators (p.caption.getD "")).1 ∧
          p'.event_keywords
            = some (PostScorer.detect_event_indicators (p.caption.getD "")).2) := by
  have hp' : p' = PostScorer.apply_event_detection p :=
    PostScorer.score_post_some_fst now p p' cs f h
  subst hp'
  unfold PostScorer.apply_event_detection
  by_cases hct : PostScorer.captionTruthy p.caption
  · simp [hct]
  · simp [hct]

/-- C10 witness: the frame theorem at a caption-less post: `score_post`
returns the post with its caption (like every other field) unchanged. -/
theorem c10_score_post_frame_witness :
    (PostScorer.score_post 0
        { post_id := "w", user_id := "u", is_close_friend := false,
          is_verified := false, caption := none, engagement_count := 0,
          follower_count := 5, created_at := 0 }).map (fun pr => pr.1.caption)
      = some ({ post_id := "w", user_id := "u", is_close_friend := false,
                is_verified := false, caption := none, engagement_count := 0,
                follower_count := 5, created_at := 0 }
                : PostScorer.Post).caption := by
  obtain ⟨cv, hc, -, -⟩ := PostScorer.content_signal_weight_bounds
    { post_id := "w", user_id := "u", is_close_friend := false,
      is_verified := false, caption := none, engagement_count := 0,
      follower_count := 5, created_at := 0 } (by norm_num)
  obtain ⟨ev, he, -, -⟩ := PostScorer.engagement_ratio_weight_bounds
    { post_id := "w", user_id := "u", is_close_friend := false,
      is_verified := false, caption := none, engagement_count := 0,
      follower_count := 5, created_at := 0 } (by norm_num)
  have hf : ∃ fv, PostScorer.calculate_final_score 0
      { post_id := "w", user_id := "u", is_close_friend := false,
        is_verified := false, caption := none, engagement_count := 0,
        follower_count := 5, created_at := 0 } = some fv := by
    unfold PostScorer.calculate_final_score
    rw [hc, he]
    exact ⟨_, rfl⟩
  obtain ⟨fv, hfv⟩ := hf
  have hsc : PostScorer.score_post 0
      { post_id := "w", user_id := "u", is_close_friend := false,
        is_verified := false, caption := none, engagement_count := 0,
        follower_count := 5, created_at := 0 }
      = some
          ({ post_id := "w", user_id := "u", is_close_friend := false,
             is_verified := false, caption := none, engagement_count := 0,
             follower_count := 5, created_at := 0 },
          ([("user_signal", PostScorer.calculate_user_signal_weight
              { post_id := "w", user_id := "u", is_close_friend := false,
                is_verified := false, caption := none, engagement_count := 0,
                follower_count := 5, created_at := 0 }),
            ("content_signal", cv),
            ("keyword_relevance", PostScorer.calculate_keyword_relevance_weight
              { post_id := "w", user_id := "u", is_close_friend := false,
                is_verified := false, caption := none, engagement_count := 0,
                follower_count := 5, created_at := 0 }),
            ("engagement_ratio", ev),
            ("recency", PostScorer.calculate_recency_weight 0
              { post_id := "w", user_id := "u", is_close_friend := false,
                is_verified := false, caption := none, engagement_count := 0,
                follower_count := 5, created_at := 0 })],
           fv)) := by
    unfold PostScorer.score_post
    dsimp only
    rw [show PostScorer.apply_event_detection
        { post_id := "w", user_id := "u", is_close_friend := false,
          is_verified := false, caption := none, engagement_count := 0,
          follower_count := 5, created_at := 0 }
      = { post_id := "w", user_id := "u", is_close_friend := false,
          is_verified := false, caption := none, engagement_count := 0,
          follower_count := 5, created_at := 0 } from rfl]
    rw [hc, he, hfv]
    rfl
  have frame := c10_score_post_frame 0
    { post_id := "w", user_id := "u", is_close_friend := false,
      is_verified := false, caption := none, engagement_count := 0,
      follower_count := 5, created_at := 0 }
    { post_id := "w", user_id := "u", is_close_friend := false,
      is_verified := false, caption := none, engagement_count := 0,
      follower_count := 5, created_at := 0 } _ fv hsc
  rw [hsc]
  exact congrArg some frame.2.2.2.2.1
